import Mathlib

/-!
Verification of the knative-serving activator specification against a shallow
embedding of the repository's source.  Each section embeds one piece of the
source (the reverse-proxy director, the health check, the drain sequence, the
timeout wiring, the transport setup, the activator config store) or, where the
relevant source file is absent from the snapshot, a model built from the
specification's words, and proves the spec's claims about it.
-/

/- ===== Reverse proxy director (NewHeaderPruningReverseProxy) ===== -/

/-- The fields of Go's net/url URL that the Director touches. -/
structure ProxyURL where
  scheme : String
  host : String
deriving Repr, DecidableEq

/-- A Go net/http Request as the Director sees it: the URL, the Host field and
the header, the latter modelled as an ordered list of key/value pairs. -/
structure ProxyRequest where
  url : ProxyURL
  host : String
  header : List (String × String)
deriving Repr, DecidableEq

/-- Go http.Header.Add: appends the value under the key. -/
def headerAdd (h : List (String × String)) (k v : String) : List (String × String) :=
  h ++ [(k, v)]

/-- Go http.Header.Del: removes all values stored under the key. -/
def headerDel (h : List (String × String)) (k : String) : List (String × String) :=
  h.filter (fun kv => kv.1 ≠ k)

/-- NoHostOverride signifies that no host overriding should be done. -/
def NoHostOverride : String := ""

/-- The passthrough-loadbalancing header key (netheader.PassthroughLoadbalancingKey,
an external constant of knative.dev/networking). -/
def PassthroughLoadbalancingKey : String := "K-Passthrough-Lb"

/-- First phase of the Director built by NewHeaderPruningReverseProxy: set the
scheme per useHTTPS, point the URL at the target, and when hostOverride is
non-empty replace the Host and add the passthrough-loadbalancing header. -/
def directorRewrite (target hostOverride : String) (useHTTPS : Bool)
    (req : ProxyRequest) : ProxyRequest :=
  let req := { req with url := { req.url with scheme := if useHTTPS then "https" else "http" } }
  let req := { req with url := { req.url with host := target } }
  if hostOverride ≠ NoHostOverride then
    { req with host := hostOverride,
               header := headerAdd req.header PassthroughLoadbalancingKey "true" }
  else
    req

/-- Second phase of the Director: delete every header named in headersToRemove. -/
def directorPrune (headersToRemove : List String) (req : ProxyRequest) : ProxyRequest :=
  { req with header := headersToRemove.foldl (fun h k => headerDel h k) req.header }

/-- The complete Director of NewHeaderPruningReverseProxy, in source order:
rewrite, then prune. -/
def director (target hostOverride : String) (headersToRemove : List String)
    (useHTTPS : Bool) (req : ProxyRequest) : ProxyRequest :=
  directorPrune headersToRemove (directorRewrite target hostOverride useHTTPS req)

/- ===== Health check (newHealthCheck in cmd/activator/main.go) ===== -/

/-- The readiness function returned by newHealthCheck: with the termination
signal fired it returns the SIGTERM error; otherwise it returns the durable
stat sink's Status().  Errors are modelled as `Option String` (none = nil). -/
def healthCheck (sigDone : Bool) (sinkStatus : Option String) : Option String :=
  if sigDone then some "received SIGTERM from kubelet" else sinkStatus

/- ===== Helper lemmas about headers ===== -/

theorem headerDel_not_mem (h : List (String × String)) (k : String) (v : String) :
    (k, v) ∉ headerDel h k := by
  intro hmem
  simp only [headerDel, List.mem_filter, decide_eq_true_eq] at hmem
  exact hmem.2 rfl

theorem headerDel_subset (h : List (String × String)) (k : String) :
    ∀ kv ∈ headerDel h k, kv ∈ h := by
  intro kv hkv
  exact (List.mem_filter.mp hkv).1

theorem foldl_headerDel_subset (l : List String) :
    ∀ (a : List (String × String)) kv,
      kv ∈ l.foldl (fun h k => headerDel h k) a → kv ∈ a := by
  induction l with
  | nil => intro a kv hkv; simpa using hkv
  | cons y ys ihy =>
    intro a kv hkv
    simp only [List.foldl_cons] at hkv
    exact headerDel_subset a y kv (ihy (headerDel a y) kv hkv)

theorem directorPrune_removes (headersToRemove : List String) (req : ProxyRequest) :
    ∀ k ∈ headersToRemove, ∀ v, (k, v) ∉ (directorPrune headersToRemove req).header := by
  suffices h : ∀ (acc : List (String × String)), ∀ k ∈ headersToRemove, ∀ v,
      (k, v) ∉ headersToRemove.foldl (fun h k => headerDel h k) acc by
    intro k hk v
    exact h req.header k hk v
  induction headersToRemove with
  | nil => intro acc k hk; simp at hk
  | cons x xs ih =>
    intro acc k hk v
    simp only [List.foldl_cons]
    rcases List.mem_cons.mp hk with hx | hxs
    · subst hx
      intro hmem
      exact headerDel_not_mem acc k v
        (foldl_headerDel_subset xs (headerDel acc k) (k, v) hmem)
    · exact ih (headerDel acc x) k hxs v

/- ===== C1 ===== -/

/-- C1: every request forwarded by the reverse proxy built by
NewHeaderPruningReverseProxy has its URL scheme set to https exactly when
useHTTPS is true (http otherwise), its URL host set to the target; when
hostOverride is non-empty the Host is replaced by hostOverride and the
passthrough-loadbalancing header is added (by the rewrite phase); and every
header named in headersToRemove is absent from the forwarded request. -/
theorem director_forwarding_spec (target hostOverride : String)
    (headersToRemove : List String) (useHTTPS : Bool) (req : ProxyRequest) :
    (director target hostOverride headersToRemove useHTTPS req).url.scheme
      = (if useHTTPS then "https" else "http") ∧
    (director target hostOverride headersToRemove useHTTPS req).url.host = target ∧
    (hostOverride ≠ NoHostOverride →
      (director target hostOverride headersToRemove useHTTPS req).host = hostOverride ∧
      (PassthroughLoadbalancingKey, "true")
        ∈ (directorRewrite target hostOverride useHTTPS req).header) ∧
    (hostOverride = NoHostOverride →
      (director target hostOverride headersToRemove useHTTPS req).host = req.host) ∧
    (∀ k ∈ headersToRemove, ∀ v,
      (k, v) ∉ (director target hostOverride headersToRemove useHTTPS req).header) := by
  refine ⟨?_, ?_, ?_, ?_, ?_⟩
  · by_cases hov : hostOverride = NoHostOverride <;>
      simp [director, directorPrune, directorRewrite, hov]
  · by_cases hov : hostOverride = NoHostOverride <;>
      simp [director, directorPrune, directorRewrite, hov]
  · intro hov
    constructor
    · simp [director, directorPrune, directorRewrite, hov]
    · simp [directorRewrite, hov, headerAdd]
  · intro hov
    simp [director, directorPrune, directorRewrite, hov]
  · exact directorPrune_removes headersToRemove _

/-- Witness for C1 at a concrete input: override host "pod", remove "X-Foo". -/
theorem director_forwarding_spec_witness :
    (director "10.0.0.1:8012" "pod" ["X-Foo"] false
        ⟨⟨"http", "old"⟩, "oldhost", [("X-Foo", "1")]⟩).url.host = "10.0.0.1:8012" ∧
    ("X-Foo", "1") ∉ (director "10.0.0.1:8012" "pod" ["X-Foo"] false
        ⟨⟨"http", "old"⟩, "oldhost", [("X-Foo", "1")]⟩).header := by
  have h := director_forwarding_spec "10.0.0.1:8012" "pod" ["X-Foo"] false
    ⟨⟨"http", "old"⟩, "oldhost", [("X-Foo", "1")]⟩
  exact ⟨h.2.1, h.2.2.2.2 "X-Foo" (by simp) "1"⟩

/- ===== C2 ===== -/

/-- C2: the readiness check returned by newHealthCheck reports healthy (nil)
iff the termination signal has not fired and the durable stat sink's Status()
is nil; otherwise it returns a non-nil error. -/
theorem healthCheck_healthy_iff (sigDone : Bool) (sinkStatus : Option String) :
    healthCheck sigDone sinkStatus = none ↔ (sigDone = false ∧ sinkStatus = none) := by
  cases sigDone <;> simp [healthCheck]

/-- Witness for C2: concrete evaluations through the theorem. -/
theorem healthCheck_healthy_iff_witness :
    healthCheck false none = none ∧ healthCheck true none ≠ none := by
  constructor
  · exact (healthCheck_healthy_iff false none).mpr ⟨rfl, rfl⟩
  · intro h
    exact absurd ((healthCheck_healthy_iff true none).mp h).1 (by simp)

/- ===== Drain sequence (tail of main in cmd/activator/main.go) ===== -/

/-- Events of the post-signal part of main (lines following the select on the
signal context): readiness starts failing, a sleep, then Shutdown per server. -/
inductive DrainEv where
  | readinessFailing : DrainEv
  | sleep (seconds : Nat) : DrainEv
  | shutdown (server : String) : DrainEv
deriving Repr, DecidableEq

/-- pkgnet.DefaultDrainTimeout, the external constant of knative.dev/pkg/network
that main sleeps for; a fixed default (45 seconds), not read from any config. -/
def DefaultDrainTimeout : Nat := 45

/-- The sequence of externally visible steps main takes once the SIGTERM signal
context is done, as a function of the cluster-drain-timeout configuration value
(which the source never consults for this sleep) and the server map: readiness
flips to failing (newHealthCheck observes the cancelled signal context), main
sleeps DefaultDrainTimeout, then calls Shutdown on every server. -/
def drainTrace (clusterDrainTimeout : Nat) (servers : List String) : List DrainEv :=
  let _ := clusterDrainTimeout
  DrainEv.readinessFailing :: DrainEv.sleep DefaultDrainTimeout :: servers.map DrainEv.shutdown

/- ===== C3 ===== -/

/-- C3 counterexample: the claim says the sleep between SIGTERM and shutdown is
the interval configured by cluster-drain-timeout; but with that configuration
set to DefaultDrainTimeout + 1 the trace still sleeps DefaultDrainTimeout, so
no sleep event of the configured length occurs. -/
theorem drainTrace_ignores_cluster_drain_timeout :
    DrainEv.sleep (DefaultDrainTimeout + 1)
      ∉ drainTrace (DefaultDrainTimeout + 1) ["http1", "h2c", "profile"] := by
  decide

/-- C3 (amended): after SIGTERM the process first lets readiness fail, then
sleeps the fixed default drain interval (pkgnet.DefaultDrainTimeout; the
cluster-drain-timeout configuration input is not consulted), and only after
that sleep calls Shutdown on every server: every shutdown event in the trace
is preceded by the sleep event, and Shutdown is never invoked before it. -/
theorem drainTrace_shutdown_after_sleep (clusterDrainTimeout : Nat)
    (servers : List String) :
    (drainTrace clusterDrainTimeout servers).head? = some DrainEv.readinessFailing ∧
    (drainTrace clusterDrainTimeout servers)[1]? = some (DrainEv.sleep DefaultDrainTimeout) ∧
    (∀ s ∈ servers, DrainEv.shutdown s ∈ drainTrace clusterDrainTimeout servers) ∧
    (∀ i : Nat, ∀ s : String,
      (drainTrace clusterDrainTimeout servers)[i]? = some (DrainEv.shutdown s) →
      ∃ j < i, (drainTrace clusterDrainTimeout servers)[j]?
        = some (DrainEv.sleep DefaultDrainTimeout)) := by
  refine ⟨by simp [drainTrace], by simp [drainTrace], ?_, ?_⟩
  · intro s hs
    simp only [drainTrace, List.mem_cons, List.mem_map]
    exact Or.inr (Or.inr ⟨s, hs, rfl⟩)
  · intro i s hi
    have hne0 : i ≠ 0 := by intro h; subst h; simp [drainTrace] at hi
    have hne1 : i ≠ 1 := by intro h; subst h; simp [drainTrace] at hi
    exact ⟨1, by omega, by simp [drainTrace]⟩

/-- Witness for C3's amended theorem at the concrete server map of main. -/
theorem drainTrace_shutdown_after_sleep_witness :
    DrainEv.shutdown "http1" ∈ drainTrace 300 ["http1", "h2c", "profile"] ∧
    ∃ j < 2, (drainTrace 300 ["http1", "h2c", "profile"])[j]?
      = some (DrainEv.sleep DefaultDrainTimeout) := by
  have h := drainTrace_shutdown_after_sleep 300 ["http1", "h2c", "profile"]
  exact ⟨h.2.2.1 "http1" (by simp), h.2.2.2 2 "http1" (by decide)⟩

/- ===== Transport setup (cmd/activator/main.go lines 154-215) ===== -/

/-- The observable result of main's transport wiring: the transports
constructed (ids in creation order), the value held by the transport variable
afterwards, and the values passed to throttler.Run and to activatorhandler.New. -/
structure TransportSetup where
  created : List Nat
  final : Nat
  throttlerArg : Nat
  handlerArg : Nat
deriving Repr, DecidableEq

/-- main's transport wiring: NewProxyAutoTransport creates transport 0; when
system-internal-tls is enabled NewProxyAutoTLSTransport creates transport 1 and
the variable is overwritten; the variable's final value is then passed to both
throttler.Run (probe path) and activatorhandler.New (data path). -/
def mainTransportSetup (tlsEnabled : Bool) : TransportSetup :=
  if tlsEnabled then
    { created := [0, 1], final := 1, throttlerArg := 1, handlerArg := 1 }
  else
    { created := [0], final := 0, throttlerArg := 0, handlerArg := 0 }

/- ===== C8 ===== -/

/-- C8 counterexample: the claim that exactly one HTTP transport is created at
startup fails when system-internal-tls is enabled: the plain transport is
constructed first and then a TLS transport is constructed to replace it, so two
transports are created in that run. -/
theorem mainTransportSetup_two_created_with_tls :
    ¬ ((mainTransportSetup true).created.length = 1 ∧
       (mainTransportSetup true).throttlerArg = (mainTransportSetup true).handlerArg) := by
  decide

/-- C8 (amended): main creates exactly one transport when system-internal TLS
is disabled and two when it is enabled (the TLS one replacing the plain one as
the value of the shared variable); in every run the very same final transport
value is passed both to throttler.Run and to the activator handler chain. -/
theorem mainTransportSetup_shared (tlsEnabled : Bool) :
    (mainTransportSetup tlsEnabled).throttlerArg = (mainTransportSetup tlsEnabled).final ∧
    (mainTransportSetup tlsEnabled).handlerArg = (mainTransportSetup tlsEnabled).final ∧
    (mainTransportSetup tlsEnabled).created.length = (if tlsEnabled then 2 else 1) ∧
    (mainTransportSetup tlsEnabled).final ∈ (mainTransportSetup tlsEnabled).created := by
  cases tlsEnabled <;> simp [mainTransportSetup]

/- ===== Timeout wiring (cmd/activator/main.go lines 216-231) ===== -/

/-- Go time.Second in nanoseconds; a Duration is an Int of nanoseconds. -/
def timeSecond : Int := 1000000000

/-- The three timeout fields of a RevisionSpec as main reads them: the code
dereferences TimeoutSeconds unconditionally and nil-checks the other two, so
TimeoutSeconds is a plain value and the others are pointers (Option). -/
structure RevTimeouts where
  timeoutSeconds : Int
  responseStartTimeoutSeconds : Option Int
  idleTimeoutSeconds : Option Int
deriving Repr, DecidableEq

/-- Modelled from the spec: the API default durations of the repository's
apis/config package (apiconfig.DefaultRevisionTimeoutSeconds and friends,
whose source file is not in the snapshot).  Their exact values are irrelevant
to the claims; the Knative defaults are 300, 300 and 0 seconds. -/
def DefaultRevisionTimeoutSeconds : Int := 300

/-- Modelled from the spec: default response-start timeout seconds. -/
def DefaultRevisionResponseStartTimeoutSeconds : Int := 300

/-- Modelled from the spec: default idle timeout seconds. -/
def DefaultRevisionIdleTimeoutSeconds : Int := 0

/-- The function literal main passes to handler.NewTimeoutHandler: when the
request context carries a revision, its TimeoutSeconds is converted to a
duration and the two optional timeouts map to 0 when nil; with no revision the
three API defaults are used. -/
def timeoutTriple (rev : Option RevTimeouts) : Int × Int × Int :=
  match rev with
  | some rev =>
    let responseStartTimeout :=
      match rev.responseStartTimeoutSeconds with
      | some v => v * timeSecond
      | none => 0 * timeSecond
    let idleTimeout :=
      match rev.idleTimeoutSeconds with
      | some v => v * timeSecond
      | none => 0 * timeSecond
    (rev.timeoutSeconds * timeSecond, responseStartTimeout, idleTimeout)
  | none =>
    (DefaultRevisionTimeoutSeconds * timeSecond,
     DefaultRevisionResponseStartTimeoutSeconds * timeSecond,
     DefaultRevisionIdleTimeoutSeconds * timeSecond)

/- ===== C6 ===== -/

/-- C6: for a request whose context carries a revision the three deadlines are
exactly the revision's TimeoutSeconds, ResponseStartTimeoutSeconds and
IdleTimeoutSeconds converted to durations, a nil optional field mapping to 0
(disabled); for a request with no revision the three API defaults are used. -/
theorem timeoutTriple_spec (rev : Option RevTimeouts) :
    (∀ r : RevTimeouts, rev = some r →
      timeoutTriple rev =
        (r.timeoutSeconds * timeSecond,
         (r.responseStartTimeoutSeconds.getD 0) * timeSecond,
         (r.idleTimeoutSeconds.getD 0) * timeSecond)) ∧
    (rev = none →
      timeoutTriple rev =
        (DefaultRevisionTimeoutSeconds * timeSecond,
         DefaultRevisionResponseStartTimeoutSeconds * timeSecond,
         DefaultRevisionIdleTimeoutSeconds * timeSecond)) := by
  constructor
  · intro r hr
    subst hr
    cases hrs : r.responseStartTimeoutSeconds <;> cases hit : r.idleTimeoutSeconds <;>
      simp [timeoutTriple, hrs, hit]
  · intro hr
    subst hr
    rfl

/-- Witness for C6 at a concrete revision (600s overall, nil response-start,
5s idle) and at the no-revision default case. -/
theorem timeoutTriple_spec_witness :
    timeoutTriple (some ⟨600, none, some 5⟩)
      = (600 * timeSecond, 0, 5 * timeSecond) ∧
    timeoutTriple none
      = (DefaultRevisionTimeoutSeconds * timeSecond,
         DefaultRevisionResponseStartTimeoutSeconds * timeSecond,
         DefaultRevisionIdleTimeoutSeconds * timeSecond) := by
  have h := timeoutTriple_spec (some ⟨600, none, some 5⟩)
  have h2 := timeoutTriple_spec (none (α := RevTimeouts))
  refine ⟨?_, h2.2 rfl⟩
  have := h.1 ⟨600, none, some 5⟩ rfl
  simpa using this

/- ===== Capacity (Throttler; source not in snapshot, modelled from the spec) ===== -/

/-- Modelled from the spec: the number of participating activators.
numActivators = 0 means all known activators participate; otherwise the first
numActivators of the sorted set do, capped at the number actually known. -/
def effectiveActivators (activatorCount numActivators : Nat) : Nat :=
  if numActivators = 0 then activatorCount else min activatorCount numActivators

/-- Modelled from the spec: per-revision local capacity of one activator,
localCapacity = ceil(containerConcurrency * podCount / min(activatorCount,
numActivators)), clamped to 0 when podCount = 0 (the Throttler source is not in
the snapshot). -/
def localCapacity (containerConcurrency podCount activatorCount numActivators : Nat) : Nat :=
  if podCount = 0 then 0
  else
    let e := effectiveActivators activatorCount numActivators
    (containerConcurrency * podCount + e - 1) / e

/- ===== C4 ===== -/

/-- C4: with containerConcurrency > 0 and at least one known activator, the
local capacity is 0 for podCount = 0, and for podCount > 0 it is the least
number of slots n with containerConcurrency * podCount ≤ n * e where e is the
effective activator count (ceiling division); with numActivators = 0 all known
activators participate (e = activatorCount); and in the spec's S2 scenario
(containerConcurrency 10, 2 pods, 2 activators, numActivators 2) each
activator's capacity is 10. -/
theorem localCapacity_spec (cc podCount activatorCount numActivators : Nat)
    (_hcc : 0 < cc) (hact : 0 < activatorCount) :
    (podCount = 0 → localCapacity cc podCount activatorCount numActivators = 0) ∧
    (0 < podCount →
      cc * podCount ≤ localCapacity cc podCount activatorCount numActivators
        * effectiveActivators activatorCount numActivators ∧
      (∀ m : Nat, cc * podCount ≤ m * effectiveActivators activatorCount numActivators →
        localCapacity cc podCount activatorCount numActivators ≤ m)) ∧
    (numActivators = 0 →
      effectiveActivators activatorCount numActivators = activatorCount) ∧
    localCapacity 10 2 2 2 = 10 := by
  have he : 0 < effectiveActivators activatorCount numActivators := by
    unfold effectiveActivators
    by_cases h : numActivators = 0
    · simpa [h] using hact
    · simp only [h, if_false]
      exact lt_min hact (Nat.pos_of_ne_zero h)
  set e := effectiveActivators activatorCount numActivators with hedef
  refine ⟨fun h => by simp [localCapacity, h], fun hpod => ?_, fun h => by simp [hedef, effectiveActivators, h], by decide⟩
  have hlc : localCapacity cc podCount activatorCount numActivators
      = (cc * podCount + e - 1) / e := by
    simp [localCapacity, Nat.pos_iff_ne_zero.mp hpod, hedef]
  constructor
  · -- cc * podCount ≤ lc * e, from lc ≤ lc via the division characterisation
    have h1 : (cc * podCount + e - 1) / e ≤ (cc * podCount + e - 1) / e := le_refl _
    have h2 := (Nat.div_le_iff_le_mul_add_pred he).mp h1
    rw [hlc]
    -- h2 : cc * podCount + e - 1 ≤ e * ((cc * podCount + e - 1) / e) + (e - 1)
    have := Nat.mul_comm e ((cc * podCount + e - 1) / e)
    omega
  · intro m hm
    rw [hlc]
    refine (Nat.div_le_iff_le_mul_add_pred he).mpr ?_
    have := Nat.mul_comm e m
    omega

/-- Witness for C4: the S2 sharding scenario, cc=10, 2 pods, 2 activators. -/
theorem localCapacity_spec_witness :
    (0 < (10 : Nat)) ∧ (0 < (2 : Nat)) ∧ localCapacity 10 2 2 2 = 10 ∧
    (10 * 2 : Nat) ≤ localCapacity 10 2 2 2 * effectiveActivators 2 2 := by
  have h := localCapacity_spec 10 2 2 2 (by decide) (by decide)
  exact ⟨by decide, by decide, h.2.2.2, (h.2.1 (by decide)).1⟩

/- ===== Throttler.Try (source not in snapshot, modelled from the spec) ===== -/

/-- Per-revision throttler state visible to one Try call: the local capacity
and the number of in-flight slots. -/
structure RTState where
  capacity : Nat
  inFlight : Nat
deriving Repr, DecidableEq

/-- Modelled from the spec: the events one queued Try call can observe — a
capacity grant waking it, a context cancellation while queued, or its fn
completing (successfully or not) once a slot is held. -/
inductive TryStep where
  | grant : TryStep
  | cancel : TryStep
  | finish (fnFails : Bool) : TryStep
deriving Repr, DecidableEq

/-- Outcome of one Try call: still parked (never returned), returned with
ctx.Err() before acquiring, returned after fn succeeded, or returned after fn
failed. -/
inductive TryRes where
  | pending : TryRes
  | cancelled : TryRes
  | ok : TryRes
  | fnErr : TryRes
deriving Repr, DecidableEq

/-- Modelled from the spec: the lifecycle of a single Throttler.Try call as a
state machine driven by a schedule of steps.  While queued (flag false) a
cancellation returns ctx.Err() with no side effects; a grant takes a slot only
when inFlight < capacity.  While holding the slot (flag true) fn runs; when it
finishes the slot is released whether fn failed or not.  The result records
the final throttler state, the outcome, and the numbers of slot acquisitions
and releases performed by this call. -/
def tryLoop : Bool → RTState → List TryStep → RTState × TryRes × Nat × Nat
  | false, st, [] => (st, .pending, 0, 0)
  | true, st, [] => (st, .pending, 1, 0)
  | false, st, .cancel :: _ => (st, .cancelled, 0, 0)
  | false, st, .grant :: rest =>
    if st.inFlight < st.capacity then
      tryLoop true ⟨st.capacity, st.inFlight + 1⟩ rest
    else
      tryLoop false st rest
  | false, st, .finish _ :: rest => tryLoop false st rest
  | true, st, .finish fnFails :: _ =>
    (⟨st.capacity, st.inFlight - 1⟩, if fnFails then .fnErr else .ok, 1, 1)
  | true, st, .grant :: rest => tryLoop true st rest
  | true, st, .cancel :: rest => tryLoop true st rest

theorem tryLoop_acquired (steps : List TryStep) : ∀ st : RTState,
    (tryLoop true st steps).2.2.1 = 1 ∧
    (tryLoop true st steps).2.2.2 ≤ 1 ∧
    (tryLoop true st steps).2.1 ≠ TryRes.cancelled ∧
    ((tryLoop true st steps).2.1 = TryRes.pending →
      (tryLoop true st steps).2.2.2 = 0 ∧ (tryLoop true st steps).1 = st) ∧
    (((tryLoop true st steps).2.1 = TryRes.ok ∨ (tryLoop true st steps).2.1 = TryRes.fnErr) →
      (tryLoop true st steps).2.2.2 = 1 ∧
      (tryLoop true st steps).1 = ⟨st.capacity, st.inFlight - 1⟩) := by
  induction steps with
  | nil =>
    intro st
    refine ⟨rfl, by simp [tryLoop], by simp [tryLoop], fun _ => ⟨rfl, rfl⟩, fun h => ?_⟩
    simp [tryLoop] at h
  | cons s rest ih =>
    intro st
    cases s with
    | grant => simpa [tryLoop] using ih st
    | cancel => simpa [tryLoop] using ih st
    | finish fnFails =>
      cases fnFails <;>
        refine ⟨rfl, by simp [tryLoop], by simp [tryLoop], fun h => ?_, fun _ => ⟨rfl, rfl⟩⟩ <;>
        simp [tryLoop] at h

/- ===== C5 ===== -/

/-- C5: every Try call either acquires a slot or returns without ever having
acquired one, and every Try that returns success (or with fn's failure) has
performed exactly one acquisition paired with exactly one release, restoring
the throttler state — no slot is leaked, including when fn fails or the
context is cancelled while queued (which performs no acquisition at all). -/
theorem tryLoop_no_slot_leak (st : RTState) (steps : List TryStep) :
    (tryLoop false st steps).2.2.2 ≤ (tryLoop false st steps).2.2.1 ∧
    (tryLoop false st steps).2.2.1 ≤ 1 ∧
    ((tryLoop false st steps).2.1 = TryRes.cancelled →
      (tryLoop false st steps).2.2.1 = 0 ∧ (tryLoop false st steps).2.2.2 = 0 ∧
      (tryLoop false st steps).1 = st) ∧
    (((tryLoop false st steps).2.1 = TryRes.ok ∨ (tryLoop false st steps).2.1 = TryRes.fnErr) →
      (tryLoop false st steps).2.2.1 = 1 ∧ (tryLoop false st steps).2.2.2 = 1 ∧
      (tryLoop false st steps).1 = st) := by
  induction steps generalizing st with
  | nil =>
    refine ⟨le_refl _, by simp [tryLoop], fun h => ?_, fun h => ?_⟩ <;>
      simp [tryLoop] at h
  | cons s rest ih =>
    cases s with
    | cancel =>
      exact ⟨le_refl _, by simp [tryLoop], fun _ => ⟨rfl, rfl, rfl⟩, fun h => by simp [tryLoop] at h⟩
    | finish fnFails => simpa [tryLoop] using ih st
    | grant =>
      by_cases hcap : st.inFlight < st.capacity
      · have h := tryLoop_acquired rest ⟨st.capacity, st.inFlight + 1⟩
        simp only [tryLoop, if_pos hcap]
        refine ⟨by omega, by omega, fun hc => absurd hc h.2.2.1, fun hres => ?_⟩
        refine ⟨h.1, (h.2.2.2.2 hres).1, ?_⟩
        rw [(h.2.2.2.2 hres).2]
        simp
      · simpa [tryLoop, if_neg hcap] using ih st

/-- Witness for C5: a Try against capacity 1 that is granted a slot and whose
fn succeeds returns ok with one acquisition, one release and the state
restored; a Try cancelled while queued acquires nothing. -/
theorem tryLoop_no_slot_leak_witness :
    ((tryLoop false ⟨1, 0⟩ [TryStep.grant, TryStep.finish false]).2.2.1 = 1 ∧
     (tryLoop false ⟨1, 0⟩ [TryStep.grant, TryStep.finish false]).2.2.2 = 1 ∧
     (tryLoop false ⟨1, 0⟩ [TryStep.grant, TryStep.finish false]).1 = ⟨1, 0⟩) ∧
    ((tryLoop false ⟨1, 1⟩ [TryStep.cancel]).2.2.1 = 0 ∧
     (tryLoop false ⟨1, 1⟩ [TryStep.cancel]).2.2.2 = 0 ∧
     (tryLoop false ⟨1, 1⟩ [TryStep.cancel]).1 = ⟨1, 1⟩) := by
  have h1 := tryLoop_no_slot_leak ⟨1, 0⟩ [TryStep.grant, TryStep.finish false]
  have h2 := tryLoop_no_slot_leak ⟨1, 1⟩ [TryStep.cancel]
  exact ⟨h1.2.2.2 (Or.inl (by decide)), h2.2.2.1 (by decide)⟩

/- ===== Timeout enforcement (handler source not in snapshot; modelled from the spec) ===== -/

/-- The three per-request deadlines in seconds; 0 means disabled. -/
structure TimeoutBounds where
  timeout : Nat
  responseStart : Nat
  idle : Nat
deriving Repr, DecidableEq

/-- The observable behaviour of one proxied request: the time (seconds after
the request entered the handler) at which the backend writes the first
response byte, and the status the backend answers with. -/
structure ReqBehavior where
  firstByte : Nat
  backendStatus : Nat
deriving Repr, DecidableEq

/-- Modelled from the spec: an enabled timer fires before any response bytes
are written exactly when its bound elapses strictly before the first byte
(before the first byte no response header has been observed and no bytes flow,
so all three timers race the same instant). -/
def firesBeforeFirstByte (b : TimeoutBounds) (firstByte : Nat) : Prop :=
  (b.timeout ≠ 0 ∧ b.timeout < firstByte) ∨
  (b.responseStart ≠ 0 ∧ b.responseStart < firstByte) ∨
  (b.idle ≠ 0 ∧ b.idle < firstByte)

instance (b : TimeoutBounds) (firstByte : Nat) :
    Decidable (firesBeforeFirstByte b firstByte) := by
  unfold firesBeforeFirstByte
  infer_instance

/-- Modelled from the spec: the status the activator answers with — 504 when a
timeout fired before the response started, the proxied backend status
otherwise. -/
def responseStatus (b : TimeoutBounds) (r : ReqBehavior) : Nat :=
  if firesBeforeFirstByte b r.firstByte then 504 else r.backendStatus

/-- The table of TestRevisionTimeout from src/test/e2e/timeout_test.go:
(timeoutSeconds, responseStartTimeoutSeconds, idleTimeoutSeconds), the
initialSleep before the test image writes its first byte, the backend status
200, and the status the test expects. -/
def revisionTimeoutE2ECases : List (TimeoutBounds × ReqBehavior × Nat) :=
  [(⟨10, 0, 0⟩, ⟨2, 200⟩, 200),
   (⟨10, 0, 0⟩, ⟨12, 200⟩, 504),
   (⟨10, 7, 0⟩, ⟨4, 200⟩, 200),
   (⟨20, 7, 0⟩, ⟨15, 200⟩, 504),
   (⟨10, 0, 5⟩, ⟨0, 200⟩, 200),
   (⟨15, 0, 7⟩, ⟨20, 200⟩, 504)]

/- ===== C7 ===== -/

/-- C7: the activator answers 504 when the overall, response-start or idle
timeout fires before any response bytes were written; a request whose backend
responds within all three bounds is answered with the proxied backend status
(so never a synthesized 504); and the model reproduces the entire
TestRevisionTimeout table of the repository's e2e tests. -/
theorem responseStatus_504_iff (b : TimeoutBounds) (r : ReqBehavior) :
    (firesBeforeFirstByte b r.firstByte → responseStatus b r = 504) ∧
    ((b.timeout ≠ 0 → r.firstByte ≤ b.timeout) →
     (b.responseStart ≠ 0 → r.firstByte ≤ b.responseStart) →
     (b.idle ≠ 0 → r.firstByte ≤ b.idle) →
     responseStatus b r = r.backendStatus) ∧
    (revisionTimeoutE2ECases.all
      (fun c => responseStatus c.1 c.2.1 = c.2.2) = true) := by
  refine ⟨fun h => by simp [responseStatus, h], fun h1 h2 h3 => ?_, by decide⟩
  have hnot : ¬ firesBeforeFirstByte b r.firstByte := by
    unfold firesBeforeFirstByte
    push_neg
    exact ⟨h1, h2, h3⟩
  simp [responseStatus, hnot]

/-- Witness for C7: the second e2e case (timeout 10s, first byte at 12s) is
answered 504, and the first (first byte at 2s, within bounds) passes the
backend's 200 through. -/
theorem responseStatus_504_iff_witness :
    responseStatus ⟨10, 0, 0⟩ ⟨12, 200⟩ = 504 ∧
    responseStatus ⟨10, 0, 0⟩ ⟨2, 200⟩ = 200 := by
  have h1 := responseStatus_504_iff ⟨10, 0, 0⟩ ⟨12, 200⟩
  have h2 := responseStatus_504_iff ⟨10, 0, 0⟩ ⟨2, 200⟩
  exact ⟨h1.1 (by decide), h2.2.1 (fun _ => by decide) (by simp) (by simp)⟩

/- ===== Activator config store (pkg/activator/config, in the snapshot) ===== -/

/-- The Defaults config of the repository's apis/config package, modelled by
one representative field the activator wiring reads. -/
structure DefaultsConfig where
  revisionTimeoutSeconds : Int
deriving Repr, DecidableEq, Inhabited

/-- The Features config of the apis/config package, modelled by one
representative flag. -/
structure FeaturesConfig where
  tagHeaderBasedRouting : Bool
deriving Repr, DecidableEq, Inhabited

/-- Modelled from the spec: apisconfig.NewDefaultsConfigFromMap(nil) — the
built-in defaults (that package's source is not in the snapshot); on a nil map
it returns a non-nil Defaults and no error. -/
def newDefaultsConfigFromMapNil : DefaultsConfig := ⟨DefaultRevisionTimeoutSeconds⟩

/-- Modelled from the spec: apisconfig.NewFeaturesConfigFromMap(nil) — the
built-in feature defaults; on a nil map it returns a non-nil Features. -/
def newFeaturesConfigFromMapNil : FeaturesConfig := ⟨false⟩

/-- The activator Config attached to contexts; the Go pointer fields become
Options. -/
structure ActivatorConfig where
  defaults : Option DefaultsConfig
  features : Option FeaturesConfig
deriving Repr, DecidableEq

/-- A context, modelled by the activator Config value attached under cfgKey
(none when nothing is attached). -/
def ActivatorCtx : Type := Option ActivatorConfig

/-- FromContext: the type assertion on ctx.Value(cfgKey{}) — the attached
Config, or nil when the context carries none. -/
def FromContext (ctx : ActivatorCtx) : Option ActivatorConfig := ctx

/-- FromContextOrDefaults: like FromContext, but a missing Config becomes an
empty one and each nil field is populated from the built-in defaults. -/
def FromContextOrDefaults (ctx : ActivatorCtx) : Option ActivatorConfig :=
  let cfg :=
    match FromContext ctx with
    | some c => c
    | none => { defaults := none, features := none }
  let cfg :=
    match cfg.defaults with
    | none => { cfg with defaults := some newDefaultsConfigFromMapNil }
    | some _ => cfg
  let cfg :=
    match cfg.features with
    | none => { cfg with features := some newFeaturesConfigFromMapNil }
    | some _ => cfg
  some cfg

/- ===== C9 ===== -/

/-- C9: for every context — including one with no attached Config —
FromContextOrDefaults returns a non-nil Config whose Defaults and Features are
both non-nil, populating absent fields from the built-in defaults, whereas
FromContext returns nil for a context without a Config. -/
theorem fromContextOrDefaults_total (ctx : ActivatorCtx) :
    (∃ c : ActivatorConfig, FromContextOrDefaults ctx = some c ∧
      c.defaults.isSome ∧ c.features.isSome) ∧
    (FromContext ctx = none →
      FromContextOrDefaults ctx
        = some ⟨some newDefaultsConfigFromMapNil, some newFeaturesConfigFromMapNil⟩) ∧
    FromContext (none : ActivatorCtx) = none := by
  refine ⟨?_, ?_, rfl⟩
  · match ctx with
    | none => exact ⟨_, rfl, rfl, rfl⟩
    | some ⟨none, none⟩ => exact ⟨_, rfl, rfl, rfl⟩
    | some ⟨none, some f⟩ => exact ⟨_, rfl, rfl, rfl⟩
    | some ⟨some d, none⟩ => exact ⟨_, rfl, rfl, rfl⟩
    | some ⟨some d, some f⟩ => exact ⟨_, rfl, rfl, rfl⟩
  · intro h
    have : ctx = none := h
    subst this
    rfl

/-- Witness for C9 at the empty context and at a context with a half-filled
Config. -/
theorem fromContextOrDefaults_total_witness :
    FromContextOrDefaults (none : ActivatorCtx)
      = some ⟨some newDefaultsConfigFromMapNil, some newFeaturesConfigFromMapNil⟩ ∧
    (∃ c : ActivatorConfig,
      FromContextOrDefaults (some ⟨some ⟨42⟩, none⟩) = some c ∧
      c.defaults.isSome ∧ c.features.isSome) := by
  have h1 := fromContextOrDefaults_total (none : ActivatorCtx)
  have h2 := fromContextOrDefaults_total (some ⟨some ⟨42⟩, none⟩)
  exact ⟨h1.2.1 rfl, h2.1⟩

/- ===== Store.Load deep-copy semantics (Store.Load in the snapshot) ===== -/

/-- A heap of config values: Go pointers become indices into the list. -/
def deepCopyAt {α : Type} [Inhabited α] (h : List α) (addr : Nat) : List α × Nat :=
  (h ++ [h.getD addr default], h.length)

/-- Writing through a pointer: mutate the heap cell at the address. -/
def heapSet {α : Type} (h : List α) (addr : Nat) (v : α) : List α :=
  h.set addr v

/-- The Store's own state: the addresses of the Defaults and Features values
held by the underlying UntypedStore (none when the configmap was never
observed, so the type assertion in Load fails). -/
structure StoreState where
  defaultsAddr : Option Nat
  featuresAddr : Option Nat
deriving Repr, DecidableEq

/-- The Config produced by Store.Load, holding pointers to freshly allocated
copies. -/
structure LoadedConfig where
  defaultsAddr : Option Nat
  featuresAddr : Option Nat
deriving Repr, DecidableEq

/-- Store.Load: builds a Config whose Defaults and Features are DeepCopies of
the store's current values (fields left nil when the store holds none). -/
def storeLoad (hD : List DefaultsConfig) (hF : List FeaturesConfig) (s : StoreState) :
    (List DefaultsConfig × List FeaturesConfig) × LoadedConfig :=
  let (hD, dAddr) :=
    match s.defaultsAddr with
    | some a =>
      let (h, a') := deepCopyAt hD a
      (h, some a')
    | none => (hD, none)
  let (hF, fAddr) :=
    match s.featuresAddr with
    | some a =>
      let (h, a') := deepCopyAt hF a
      (h, some a')
    | none => (hF, none)
  ((hD, hF), ⟨dAddr, fAddr⟩)

/- ===== C10 ===== -/

/-- C10: Store.Load returns deep copies — the returned Config's pointers are
fresh (distinct from the store's), the copies hold the same values, and
writing any value through the returned Config's pointers leaves the store's
own cells untouched, so a subsequent Load observes the values from before the
mutation. -/
theorem storeLoad_deep_copies (hD : List DefaultsConfig) (hF : List FeaturesConfig)
    (s : StoreState) (a b : Nat)
    (hsa : s.defaultsAddr = some a) (hsb : s.featuresAddr = some b)
    (ha : a < hD.length) (hb : b < hF.length)
    (v : DefaultsConfig) (w : FeaturesConfig) :
    ∃ a' b', (storeLoad hD hF s).2 = ⟨some a', some b'⟩ ∧
      a' ≠ a ∧ b' ≠ b ∧
      (storeLoad hD hF s).1.1[a']? = hD[a]? ∧
      (storeLoad hD hF s).1.2[b']? = hF[b]? ∧
      (heapSet (storeLoad hD hF s).1.1 a' v)[a]? = hD[a]? ∧
      (heapSet (storeLoad hD hF s).1.2 b' w)[b]? = hF[b]? := by
  refine ⟨hD.length, hF.length, by simp [storeLoad, hsa, hsb, deepCopyAt], ?_, ?_, ?_, ?_, ?_, ?_⟩
  · omega
  · omega
  · simp only [storeLoad, hsa, hsb, deepCopyAt]
    rw [List.getElem?_append_right (le_refl _)]
    simp [List.getD_eq_getElem?_getD, List.getElem?_eq_getElem ha]
  · simp only [storeLoad, hsa, hsb, deepCopyAt]
    rw [List.getElem?_append_right (le_refl _)]
    simp [List.getD_eq_getElem?_getD, List.getElem?_eq_getElem hb]
  · simp only [storeLoad, hsa, hsb, deepCopyAt, heapSet]
    rw [List.getElem?_set_ne (by omega)]
    exact List.getElem?_append_left ha
  · simp only [storeLoad, hsa, hsb, deepCopyAt, heapSet]
    rw [List.getElem?_set_ne (by omega)]
    exact List.getElem?_append_left hb

/-- Witness for C10 on a one-cell store: overwriting the copy returned by Load
does not change the store's cell. -/
theorem storeLoad_deep_copies_witness :
    ∃ a' b', (storeLoad [⟨300⟩] [⟨false⟩] ⟨some 0, some 0⟩).2 = ⟨some a', some b'⟩ ∧
      a' ≠ 0 ∧ b' ≠ 0 ∧
      (storeLoad [⟨300⟩] [⟨false⟩] ⟨some 0, some 0⟩).1.1[a']? = [(⟨300⟩ : DefaultsConfig)][0]? ∧
      (storeLoad [⟨300⟩] [⟨false⟩] ⟨some 0, some 0⟩).1.2[b']? = [(⟨false⟩ : FeaturesConfig)][0]? ∧
      (heapSet (storeLoad [⟨300⟩] [⟨false⟩] ⟨some 0, some 0⟩).1.1 a' ⟨7⟩)[0]?
        = [(⟨300⟩ : DefaultsConfig)][0]? ∧
      (heapSet (storeLoad [⟨300⟩] [⟨false⟩] ⟨some 0, some 0⟩).1.2 b' ⟨true⟩)[0]?
        = [(⟨false⟩ : FeaturesConfig)][0]? := by
  exact storeLoad_deep_copies [⟨300⟩] [⟨false⟩] ⟨some 0, some 0⟩ 0 0 rfl rfl
    (by decide) (by decide) ⟨7⟩ ⟨true⟩
